import Mathlib

/-!
Verification of the chat-driven Jira backend.

The definitions below are shallow embeddings of the repository's Python
sources.  External effects (the Jira HTTP API, the OpenAI API, the Django
ORM and cache) are modelled as explicit oracle records passed to each
function; machine side effects such as `time.sleep` are recorded in traces
so that properties about them can be stated.  Delays are rationals, the
conversation store is a list of messages, and every fallible operation
returns an `Except`.
-/

/-! ## Retry wrapper from `backend/core/api_utils.py` (`retry_with_backoff`)

The decorator runs `for attempt in range(max_retries)`, invoking the wrapped
callable once per iteration.  The caught (transient) exception classes are
`RequestException`, `JIRAError` and `OpenAIError` (`RateLimitError` is a
subclass of `OpenAIError`); any other exception propagates immediately.
A rate-limit failure with a truthy `Retry-After` sleeps that duration and
`continue`s; otherwise the wrapper sleeps the exponential-backoff delay,
except on the last attempt, where it breaks and re-raises.
-/

namespace ApiUtils

/-- The transient exception classes caught by the wrapper, with the data
`get_retry_after` inspects: the `retry_after` attribute of an OpenAI
`RateLimitError` (`getattr(e, 'retry_after', 30)`) and the `Retry-After`
response header of a `JIRAError`. -/
inductive PyExc
  | rateLimitOpenAI (retryAfterAttr : Option ℚ)
  | jiraError (statusCode : Option ℕ) (retryAfterHeader : Option ℚ)
  | requestException
  | openAIError
  deriving DecidableEq, Repr

/-- `get_retry_after` from `api_utils.py`. -/
def get_retry_after : PyExc → Option ℚ
  | .rateLimitOpenAI a => some (a.getD 30)
  | .jiraError s h => if s = some 429 then h else none
  | _ => none

/-- The rate-limit test of the wrapper:
`isinstance(e, RateLimitError) or (isinstance(e, JIRAError) and e.status_code == 429)`. -/
def isRateLimit : PyExc → Bool
  | .rateLimitOpenAI _ => true
  | .jiraError s _ => s = some 429
  | _ => false

/-- Outcome of one invocation of the wrapped callable: a return value, a
caught transient exception, or an uncaught exception. -/
inductive Outcome (α : Type)
  | ok (v : α)
  | exc (e : PyExc)
  | fatal (msg : String)
  deriving DecidableEq, Repr

/-- Result of the wrapped call: a value, the re-raised last transient
exception (`none` models `raise None` when the loop never ran), or an
uncaught exception propagating. -/
inductive RetryResult (α : Type)
  | ok (v : α)
  | raised (e : Option PyExc)
  | fatalRaised (msg : String)
  deriving DecidableEq, Repr

/-- Python truthiness of the optional rational `retry_after`
(`if retry_after:` is false for `None` and for `0.0`). -/
def pyTruthyQ : Option ℚ → Bool
  | none => false
  | some r => r ≠ 0

/-- The retry loop.  `rem` is the number of `range(max_retries)` iterations
left, `attempt` the current index (also the number of invocations made so
far), `delay` the current backoff, `last` the stored `last_exception`, and
`sleeps` the reversed list of `time.sleep` durations so far.  Returns the
result, the total number of invocations of the callable, and the sleep
trace in order. -/
def retryAux (f : ℕ → Outcome α) (max_retries : ℕ) (max_delay backoff_factor : ℚ) :
    ℕ → ℕ → ℚ → Option PyExc → List ℚ → RetryResult α × ℕ × List ℚ
  | 0, attempt, _, last, sleeps => (.raised last, attempt, sleeps.reverse)
  | rem + 1, attempt, delay, _, sleeps =>
    match f attempt with
    | .ok v => (.ok v, attempt + 1, sleeps.reverse)
    | .fatal m => (.fatalRaised m, attempt + 1, sleeps.reverse)
    | .exc e =>
      let retry_after := if isRateLimit e then get_retry_after e else none
      if pyTruthyQ retry_after then
        retryAux f max_retries max_delay backoff_factor rem (attempt + 1) delay (some e)
          (retry_after.getD 0 :: sleeps)
      else if attempt = max_retries - 1 then
        (.raised (some e), attempt + 1, sleeps.reverse)
      else
        retryAux f max_retries max_delay backoff_factor rem (attempt + 1)
          (min (delay * backoff_factor) max_delay) (some e) (delay :: sleeps)

/-- `retry_with_backoff(max_retries, initial_delay, max_delay, backoff_factor)`
applied to a callable whose `i`-th invocation yields `f i`. -/
def retry_with_backoff (max_retries : ℕ) (initial_delay max_delay backoff_factor : ℚ)
    (f : ℕ → Outcome α) : RetryResult α × ℕ × List ℚ :=
  retryAux f max_retries max_delay backoff_factor max_retries 0 initial_delay none []

end ApiUtils

/-! ## Retry wrapper from `backend/core/jira_integration.py`

This second decorator catches every exception (`except Exception`), sleeps
`delay` then multiplies it by the factor, and re-raises after the last
attempt.  If `max_retries = 0` the loop body never runs and the function
returns `None`. -/

namespace JiraWrap

/-- Result of the second wrapper: value, re-raised exception, or the
implicit `None` return when the loop never ran. -/
inductive Result (ε α : Type)
  | ok (v : α)
  | raised (e : ε)
  | noneReturned
  deriving DecidableEq, Repr

/-- The retry loop of `jira_integration.retry_with_backoff`. -/
def retryAux (f : ℕ → Except ε α) (max_retries : ℕ) (backoff_factor : ℚ) :
    ℕ → ℕ → ℚ → List ℚ → Result ε α × ℕ × List ℚ
  | 0, attempt, _, sleeps => (.noneReturned, attempt, sleeps.reverse)
  | rem + 1, attempt, delay, sleeps =>
    match f attempt with
    | .ok v => (.ok v, attempt + 1, sleeps.reverse)
    | .error e =>
      if attempt = max_retries - 1 then (.raised e, attempt + 1, sleeps.reverse)
      else retryAux f max_retries backoff_factor rem (attempt + 1) (delay * backoff_factor)
        (delay :: sleeps)

/-- `retry_with_backoff(max_retries, initial_delay, backoff_factor)` from
`backend/core/jira_integration.py`. -/
def retry_with_backoff (max_retries : ℕ) (initial_delay backoff_factor : ℚ)
    (f : ℕ → Except ε α) : Result ε α × ℕ × List ℚ :=
  retryAux f max_retries backoff_factor max_retries 0 initial_delay []

end JiraWrap

/-- Python truthiness of an optional string: absent (`None`) and `""` are
falsy. -/
def pyFalsyStr : Option String → Bool
  | none => true
  | some s => s = ""

/-- Python `str.upper()` (character-wise, over the underlying list). -/
def pyUpper (s : String) : String := String.mk (s.data.map Char.toUpper)

/-- Python `str.lower()` (character-wise, over the underlying list). -/
def pyLower (s : String) : String := String.mk (s.data.map Char.toLower)

/-! ## Jira client from `jira_integration_app/core/jira_integration.py`

Each method body may raise Django `ValidationError`, `ValueError`,
`JIRAError` (from the underlying `jira` library calls, modelled as oracles)
or `JiraClientError`; the method's trailing `except JIRAError` /
`except Exception` clauses then transform whatever escapes the body.  In
particular a `ValidationError` raised in the body is caught by
`except Exception` and re-raised as
`JiraClientError(f"Unexpected error ...: {str(e)}")`.

Issue, comment and user payloads are opaque strings: the claims under proof
concern control flow, error classes and which endpoints are invoked, not the
field-by-field response formatting.  Each method returns its result together
with the ordered list of Jira endpoints it invoked. -/

namespace JiraApp

/-- A `JIRAError` raised by an underlying `jira` library call. -/
structure ApiErr where
  status : Option ℕ
  msg : String
  deriving DecidableEq, Repr

/-- An exception as raised inside a client method body, before the method's
trailing `except` clauses transform it. -/
inductive PyErr
  | validationError (msg : String)
  | valueError (msg : String)
  | jiraError (status : Option ℕ) (msg : String)
  | clientError (msg : String) (status : Option ℕ)
  deriving DecidableEq, Repr

/-- `str(e)` for each modelled exception; Django's `ValidationError` renders
as the list of its messages. -/
def pyStr : PyErr → String
  | .validationError m => "['" ++ m ++ "']"
  | .valueError m => m
  | .jiraError _ m => m
  | .clientError m _ => m

/-- An error escaping a client method: Django's `ValidationError` (only ever
raised from inside an `except JIRAError` handler) or the module's
`JiraClientError` with its optional status code. -/
inductive JiraErr
  | validationError (msg : String)
  | clientError (msg : String) (status : Option ℕ)
  deriving DecidableEq, Repr

/-- Python `str.split` on a single-character separator (keeps empty parts). -/
def splitChar (sep : Char) : List Char → List (List Char)
  | [] => [[]]
  | c :: rest =>
    match splitChar sep rest with
    | [] => [[c]]
    | g :: gs => if c = sep then [] :: g :: gs else (c :: g) :: gs

/-- Python `str.isalnum()`: non-empty and every character alphanumeric. -/
def strIsAlnum (s : List Char) : Bool := ¬ s.isEmpty && s.all Char.isAlphanum

/-- Python `str.isdigit()`: non-empty and every character a digit. -/
def strIsDigit (s : List Char) : Bool := ¬ s.isEmpty && s.all Char.isDigit

/-- `JiraClient._validate_issue_key`, as the exception it raises (if any).
An empty key or a key without `-` fails validation; the two-variable unpack
`project_key, issue_number = issue_key.split('-')` raises a `ValueError`
when the split does not yield exactly two parts (a key with two or more
hyphens); a non-alphanumeric project part or non-digit issue number fails
validation. -/
def validate_issue_key (issue_key : String) : Except PyErr Unit :=
  if issue_key = "" ∨ ¬ issue_key.toList.contains '-' then
    .error (.validationError ("Invalid issue key format: " ++ issue_key))
  else if (splitChar '-' issue_key.toList).length = 2 then
    if ¬ strIsAlnum ((splitChar '-' issue_key.toList).getD 0 []) ∨
        ¬ strIsDigit ((splitChar '-' issue_key.toList).getD 1 []) then
      .error (.validationError ("Invalid issue key format: " ++ issue_key))
    else .ok ()
  else .error (.valueError "too many values to unpack (expected 2)")

/-- The Jira issue-type dictionary sent by `create_issue`. -/
structure IssueDict where
  project : String
  summary : String
  description : String
  issuetype : String
  assignee : Option String
  deriving DecidableEq, Repr

/-- Oracles for the Django cache and the underlying `jira` library calls a
`JiraClient` instance makes.  Issue/comment payloads are opaque strings. -/
structure ClientEnv where
  /-- `cache.get('jira_valid_statuses')`. -/
  cachedValidStatuses : Option (List String)
  /-- Status names from `self.client.statuses()`, or the raised `JIRAError`. -/
  statuses : Except ApiErr (List String)
  /-- `cache.get(f'jira_issues_{user}_{status}_{max_results}')`. -/
  cachedIssues : Option (List String)
  /-- `self.client.search_issues(jql, startAt, ...)`: the batch of issues
  returned for a given JQL and `startAt`. -/
  search : String → ℕ → Except ApiErr (List String)
  /-- `self.client.issue(key)`: the issue's current status name. -/
  getIssue : Except ApiErr String
  /-- `self.client.transitions(issue)`: (name, id) rows. -/
  transitions : Except ApiErr (List (String × String))
  /-- `self.client.transition_issue(issue, id)`. -/
  transitionIssue : Except ApiErr Unit
  /-- The refreshed `self.client.issue(key)`: (summary, status, updated). -/
  getIssueAfter : Except ApiErr (String × String × String)
  /-- `cache.get(f'jira_user_{id}')`. -/
  cachedUser : String → Option String
  /-- `self.client.user(id)`: the resolved user's name. -/
  lookupUser : String → Except ApiErr String
  /-- `self.client.add_comment(key, body, visibility)`: the created comment. -/
  addComment : String → Except ApiErr String
  /-- `self.client.create_issue(fields=...)`: the created issue's key. -/
  createIssue : IssueDict → Except ApiErr String

/-- The valid-status list `_build_jql_query` works from: the cached list
when truthy, otherwise a fresh `self.client.statuses()` fetch
(`if not valid_statuses:` refetches on a missing or empty cache entry). -/
def effectiveValidStatuses (env : ClientEnv) : Except ApiErr (List String) :=
  match env.cachedValidStatuses with
  | some v => if v.isEmpty then env.statuses else .ok v
  | none => env.statuses

/-- The endpoint log of the valid-status lookup. -/
def validStatusesLog (env : ClientEnv) : List String :=
  match env.cachedValidStatuses with
  | some v => if v.isEmpty then ["statuses"] else []
  | none => ["statuses"]

/-- `_build_jql_query`: builds the assignee query and, when a truthy status
filter is given, validates it case-insensitively against the effective
valid-status list before appending the filter.  Returns the raised exception
or the query, plus the endpoint log. -/
def build_jql_query (env : ClientEnv) (jira_user_id : String) (status : Option String) :
    Except PyErr String × List String :=
  let query := "assignee = \"" ++ jira_user_id ++ "\""
  if pyFalsyStr status then (.ok (query ++ " ORDER BY updated DESC"), [])
  else
    let st := status.getD ""
    match effectiveValidStatuses env with
    | .error a => (.error (.jiraError a.status a.msg), validStatusesLog env)
    | .ok valid_statuses =>
      if ¬ (valid_statuses.map pyUpper).contains (pyUpper st) then
        (.error (.validationError ("Invalid status: " ++ st ++ ". Valid statuses are: " ++
          String.intercalate ", " valid_statuses)), validStatusesLog env)
      else
        (.ok (query ++ " AND status = \"" ++ st ++ "\"" ++ " ORDER BY updated DESC"),
          validStatusesLog env)

/-- The pagination loop of `get_user_issues`, fuel-bounded (the Python loop
terminates because every continuing iteration appends at least 50 issues;
any fuel of at least `max_results + 1` is enough, and the fuel-exhausted
branch is unreachable on such runs). -/
def searchLoop (env : ClientEnv) (jql : String) (max_results : ℕ) :
    ℕ → ℕ → List String → List String → Except ApiErr (List String) × List String
  | 0, _, issues, log => (.ok issues, log)
  | fuel + 1, start_at, issues, log =>
    if issues.length < max_results then
      match env.search jql start_at with
      | .error a => (.error a, log ++ ["search_issues"])
      | .ok batch =>
        let log := log ++ ["search_issues"]
        if batch.isEmpty then (.ok issues, log)
        else if batch.length < 50 then (.ok (issues ++ batch), log)
        else searchLoop env jql max_results fuel (start_at + 50) (issues ++ batch) log
    else (.ok issues, log)

/-- The trailing `except` clauses of `get_user_issues`: `JIRAError` with
status 400 becomes a `ValidationError`, other `JIRAError`s become
`JiraClientError` with the provider's status code, and anything else —
including a `ValidationError` raised in the body — becomes the generic
`JiraClientError("Unexpected error fetching issues: ...")`. -/
def wrapIssues : PyErr → JiraErr
  | .jiraError st m =>
    if st = some 400 then .validationError ("Invalid JQL query: " ++ m)
    else .clientError ("Error fetching issues: " ++ m) st
  | e => .clientError ("Unexpected error fetching issues: " ++ pyStr e) none

/-- `JiraClient.get_user_issues`: JQL construction (with status validation),
cache lookup, pagination, truncation to `max_results`.  The per-issue
formatting of `_format_issue` is kept opaque. -/
def get_user_issues (env : ClientEnv) (jira_user_id : String) (status : Option String)
    (max_results : ℕ) : Except JiraErr (List String) × List String :=
  match build_jql_query env jira_user_id status with
  | (.error e, log) => (.error (wrapIssues e), log)
  | (.ok jql, log) =>
    match env.cachedIssues with
    | some cached =>
      if cached.isEmpty then
        match searchLoop env jql max_results (max_results + 1) 0 [] log with
        | (.error a, log) => (.error (wrapIssues (.jiraError a.status a.msg)), log)
        | (.ok issues, log) => (.ok (issues.take max_results), log)
      else (.ok cached, log)
    | none =>
      match searchLoop env jql max_results (max_results + 1) 0 [] log with
      | (.error a, log) => (.error (wrapIssues (.jiraError a.status a.msg)), log)
      | (.ok issues, log) => (.ok (issues.take max_results), log)

/-- The trailing `except` clauses of `add_comment_to_issue`. -/
def wrapComment : PyErr → JiraErr
  | .jiraError st m =>
    if st = some 400 then .validationError ("Invalid comment format: " ++ m)
    else .clientError ("Error adding comment: " ++ m) st
  | e => .clientError ("Unexpected error adding comment: " ++ pyStr e) none

/-- `_format_mentions`: resolves each mentioned user through the cache or
the `user` endpoint (unresolvable mentions are dropped with a warning),
prefixes `[~uid]` tags for the resolved ones.  Returns the formatted comment
body and the endpoint log. -/
def format_mentions (env : ClientEnv) (comment : String)
    (mentions : Option (List String)) : String × List String :=
  match mentions with
  | none => (comment, [])
  | some ms =>
    if ms.isEmpty then (comment, [])
    else
      let resolve := fun (acc : List String × List String) (uid : String) =>
        match env.cachedUser uid with
        | some _ => (acc.1 ++ [uid], acc.2)
        | none =>
          match env.lookupUser uid with
          | .ok _ => (acc.1 ++ [uid], acc.2 ++ ["user"])
          | .error _ => (acc.1, acc.2 ++ ["user"])
      let resolved_log := ms.foldl resolve ([], [])
      let mentions_text := String.intercalate " "
        ((ms.filter (fun uid => resolved_log.1.contains uid)).map
          (fun uid => "[~" ++ uid ++ "]"))
      (if mentions_text ≠ "" then mentions_text ++ " " ++ comment else comment,
        resolved_log.2)

/-- `JiraClient.add_comment_to_issue`: key validation, mention formatting,
existence check of the issue (404 → `ValidationError`, 403 →
`JiraClientError`, both re-wrapped at the boundary), then the comment
creation. -/
def add_comment_to_issue (env : ClientEnv) (issue_key comment : String)
    (mentions : Option (List String)) : Except JiraErr String × List String :=
  match validate_issue_key issue_key with
  | .error e => (.error (wrapComment e), [])
  | .ok _ =>
    let fmt := format_mentions env comment mentions
    match env.getIssue with
    | .error a =>
      let e := if a.status = some 404 then
          PyErr.validationError ("Issue " ++ issue_key ++ " not found")
        else if a.status = some 403 then
          PyErr.clientError "Permission denied to access the issue" (some 403)
        else PyErr.jiraError a.status a.msg
      (.error (wrapComment e), fmt.2 ++ ["issue"])
    | .ok _ =>
      match env.addComment fmt.1 with
      | .error a => (.error (wrapComment (.jiraError a.status a.msg)),
          fmt.2 ++ ["issue", "add_comment"])
      | .ok cid => (.ok cid, fmt.2 ++ ["issue", "add_comment"])

/-- Python dict insertion: later bindings for an existing key overwrite in
place, new keys append (insertion order preserved). -/
def dictInsert (k v : String) (d : List (String × String)) : List (String × String) :=
  if d.any (fun p => p.1 = k) then d.map (fun p => if p.1 = k then (k, v) else p)
  else d ++ [(k, v)]

/-- `{t['name'].lower(): t['id'] for t in transitions}`. -/
def transitionsDict (ts : List (String × String)) : List (String × String) :=
  ts.foldl (fun d t => dictInsert (pyLower t.1) t.2 d) []

/-- Python `needle in haystack` on strings (substring containment). -/
def pySubstr (needle haystack : String) : Bool :=
  (List.range (haystack.length + 1)).any
    (fun i => needle.toList.isPrefixOf (haystack.toList.drop i))

/-- The transition matching of `update_issue_status`: exact case-insensitive
dict lookup first, then the first transition whose lowercased name contains
the lowercased request as a substring. -/
def findTransitionId (vt : List (String × String)) (new_status_lower : String) :
    Option String :=
  match vt.find? (fun p => p.1 = new_status_lower) with
  | some p => some p.2
  | none => (vt.find? (fun p => pySubstr new_status_lower p.1)).map (fun p => p.2)

/-- The trailing `except` clauses of `update_issue_status`. -/
def wrapUpdate : PyErr → JiraErr
  | .jiraError st m =>
    if st = some 400 then .validationError ("Invalid status transition: " ++ m)
    else .clientError ("Error updating issue status: " ++ m) st
  | e => .clientError ("Unexpected error updating issue status: " ++ pyStr e) none

/-- The formatted response of `update_issue_status`. -/
structure UpdateResult where
  key : String
  summary : String
  status : String
  updated : String
  previous_status : String
  deriving DecidableEq, Repr

/-- `JiraClient.update_issue_status`: key validation, issue fetch, transition
fetch, matching, transition, refreshed fetch.  `if not transition_id:` is
falsy both for no match and for an empty transition id. -/
def update_issue_status (env : ClientEnv) (issue_key new_status : String) :
    Except JiraErr UpdateResult × List String :=
  match validate_issue_key issue_key with
  | .error e => (.error (wrapUpdate e), [])
  | .ok _ =>
    match env.getIssue with
    | .error a =>
      let e := if a.status = some 404 then
          PyErr.validationError ("Issue " ++ issue_key ++ " not found")
        else if a.status = some 403 then
          PyErr.clientError "Permission denied to access the issue" (some 403)
        else PyErr.jiraError a.status a.msg
      (.error (wrapUpdate e), ["issue"])
    | .ok current_status =>
      match env.transitions with
      | .error a => (.error (wrapUpdate (.jiraError a.status a.msg)),
          ["issue", "transitions"])
      | .ok ts =>
        let vt := transitionsDict ts
        let tid := findTransitionId vt (pyLower new_status)
        if tid = none ∨ tid = some "" then
          (.error (wrapUpdate (.validationError
            ("Invalid status transition. Valid statuses are: " ++
              String.intercalate ", " (vt.map (fun p => p.1))))),
            ["issue", "transitions"])
        else
          match env.transitionIssue with
          | .error a => (.error (wrapUpdate (.jiraError a.status a.msg)),
              ["issue", "transitions", "transition_issue"])
          | .ok _ =>
            match env.getIssueAfter with
            | .error a => (.error (wrapUpdate (.jiraError a.status a.msg)),
                ["issue", "transitions", "transition_issue", "issue"])
            | .ok after =>
              (.ok ⟨issue_key, after.1, after.2.1, after.2.2, current_status⟩,
                ["issue", "transitions", "transition_issue", "issue"])

/-- The trailing `except` clauses of `create_issue`. -/
def wrapCreate : PyErr → JiraErr
  | .jiraError st m =>
    if st = some 400 then .validationError ("Invalid issue data: " ++ m)
    else if st = some 403 then .clientError "Permission denied to create issue" (some 403)
    else .clientError ("Error creating issue: " ++ m) st
  | e => .clientError ("Unexpected error creating issue: " ++ pyStr e) none

/-- The part of `create_issue` after the three required-field checks have
passed: optional assignee resolution (404 → `ValidationError "Assignee ...
not found"`, itself re-wrapped at the boundary), then the creation call.
`description` may be `None` (`description or ''`). -/
def create_issue_validated (env : ClientEnv) (project_key summary description
    issue_type assignee : Option String) : Except JiraErr String × List String :=
  let go : Option String → List String → Except JiraErr String × List String :=
    fun resolved log =>
      let d : IssueDict := ⟨project_key.getD "", summary.getD "",
        description.getD "", issue_type.getD "", resolved⟩
      match env.createIssue d with
      | .error a => (.error (wrapCreate (.jiraError a.status a.msg)),
          log ++ ["create_issue"])
      | .ok k => (.ok k, log ++ ["create_issue"])
  if pyFalsyStr assignee then go none []
  else
    let a := assignee.getD ""
    match env.lookupUser a with
    | .error ae =>
      if ae.status = some 404 then
        (.error (wrapCreate (.validationError ("Assignee " ++ a ++ " not found"))),
          ["user"])
      else (.error (wrapCreate (.jiraError ae.status ae.msg)), ["user"])
    | .ok uname => go (some uname) ["user"]

/-- `JiraClient.create_issue`: the three required-field truthiness checks,
then the resolution/creation continuation. -/
def create_issue (env : ClientEnv) (project_key summary description issue_type
    assignee : Option String) : Except JiraErr String × List String :=
  if pyFalsyStr project_key then
    (.error (wrapCreate (.validationError "Project key is required")), [])
  else if pyFalsyStr summary then
    (.error (wrapCreate (.validationError "Summary is required")), [])
  else if pyFalsyStr issue_type then
    (.error (wrapCreate (.validationError "Issue type is required")), [])
  else create_issue_validated env project_key summary description issue_type assignee

/-- Whether an escaping client-method error is Django's `ValidationError`
(as opposed to the module's `JiraClientError`). -/
def isValidationError : JiraErr → Bool
  | .validationError _ => true
  | .clientError _ _ => false

/-- Whether a client-method call failed with a `ValidationError`. -/
def failsWithValidationError {α : Type} : Except JiraErr α → Bool
  | .error e => isValidationError e
  | .ok _ => false

end JiraApp

/-- A concrete oracle environment for evaluating the client methods on
closed inputs. -/
def demoEnv : JiraApp.ClientEnv where
  cachedValidStatuses := some ["To Do", "In Progress", "Done"]
  statuses := .ok ["To Do", "In Progress", "Done"]
  cachedIssues := none
  search := fun _ _ => .ok ["ISSUE-1"]
  getIssue := .ok "To Do"
  transitions := .ok [("In Progress", "21"), ("Done", "31")]
  transitionIssue := .ok ()
  getIssueAfter := .ok ("Summary", "In Progress", "today")
  cachedUser := fun _ => none
  lookupUser := fun u => if u = "alice" then .ok "Alice"
    else .error ⟨some 404, "user not found"⟩
  addComment := fun _ => .ok "10001"
  createIssue := fun _ => .ok "TEST-9"

/-! ## Scrum updates, from `jira_integration_app/core/utils.py` and the
`ScrumUpdate` model (`models.py`, `unique_together = ['user', 'date']`). -/

namespace Scrum

/-- A persisted `ScrumUpdate` row; users and dates are abstracted to
numbers. -/
structure ScrumRec where
  user : ℕ
  date : ℕ
  updates : String
  deriving DecidableEq, Repr

/-- `get_scrum_update`: `ScrumUpdate.objects.get(user=..., date=...)` with
`DoesNotExist` mapped to `none`. -/
def get_scrum_update (db : List ScrumRec) (user date : ℕ) : Option ScrumRec :=
  db.find? (fun r => r.user = user && r.date = date)

/-- ASCII `[A-Z]`. -/
def isUpperAZ (c : Char) : Bool := 'A' ≤ c && c ≤ 'Z'

/-- `re.findall(r'[A-Z]+-\d+', updates)`, fuel-bounded scanner: at each
position try the greedy match (for this pattern the maximal uppercase run
followed by `-` and the maximal digit run — no backtracking can help), emit
and continue after it, else advance one character. -/
def findKeysAux : ℕ → List Char → List String
  | 0, _ => []
  | _ + 1, [] => []
  | fuel + 1, c :: rest =>
    if isUpperAZ c then
      let run := (c :: rest).takeWhile isUpperAZ
      match (c :: rest).dropWhile isUpperAZ with
      | '-' :: rest2 =>
        let digits := rest2.takeWhile Char.isDigit
        if digits.isEmpty then findKeysAux fuel rest
        else String.mk (run ++ '-' :: digits) ::
          findKeysAux fuel (rest2.dropWhile Char.isDigit)
      | _ => findKeysAux fuel rest
    else findKeysAux fuel rest

/-- All `PROJECT-123`-shaped keys in a string. -/
def findall_issue_keys (s : String) : List String :=
  findKeysAux s.toList.length s.toList

/-- `create_scrum_update`: raise `ValueError` if an update already exists for
(`user`, `today`); otherwise create the row, then best-effort tag each
distinct mentioned issue key with a comment (`set(issue_keys)` is modelled
by deduplication — its iteration order is unspecified in Python anyway —
and `tagComment` is the `jira_client.add_comment_to_issue` call, whose
`.error` is the raised `JiraClientError`).  Returns the outcome and the
resulting store. -/
def create_scrum_update (db : List ScrumRec) (user : ℕ) (userName : String)
    (today : ℕ) (updates : String) (tagComment : String → String → Except String Unit) :
    Except String (ScrumRec × List String) × List ScrumRec :=
  match get_scrum_update db user today with
  | some _ => (.error ("Scrum update already exists for " ++ toString today), db)
  | none =>
    let newRec : ScrumRec := ⟨user, today, updates⟩
    let db' := db ++ [newRec]
    let body := "Daily Scrum Update from " ++ userName ++ ":\n" ++ updates
    let results := (findall_issue_keys updates).dedup.map (fun k =>
      match tagComment k body with
      | .ok _ => "Added scrum update to " ++ k
      | .error e => "Failed to add comment to " ++ k ++ ": " ++ e)
    (.ok (newRec, results), db')

/-- The uniqueness invariant enforced by `unique_together = ['user', 'date']`. -/
def atMostOnePerUserDate (db : List ScrumRec) : Prop :=
  ∀ u d, (db.filter (fun r => r.user = u && r.date = d)).length ≤ 1

end Scrum

/-! ## Intent classifier, from `backend/core/openai_integration.py`
(`OpenAIClient.get_intent_and_parameters`). -/

namespace Classifier

/-- The assistant message returned by the completions call: plain content or
a structured function call with raw (unparsed) argument text. -/
inductive ModelMessage
  | text (content : Option String)
  | funcCall (nm : String) (rawArgs : String)
  deriving DecidableEq, Repr

/-- The ephemeral intent result (§3 of the spec): exactly one of
`{'function_name': ..., 'arguments': ...}` or `{'response': ...}`. -/
inductive IntentDict
  | functionCall (nm : String) (args : List (String × String))
  | response (content : Option String)
  deriving DecidableEq, Repr

/-- Oracles for one classifier invocation. -/
structure ClassifierEnv where
  /-- Result of `self.client.chat.completions.create(...)`; `.error` is the
  raised exception, re-raised by the body's own handler as
  `Exception(format_error_message(e)['error'])` (kept opaque here). -/
  apiResult : Except String ModelMessage
  /-- `eval(message.function_call.arguments)`: the parsed argument mapping,
  or the parse exception. -/
  evalArgs : String → Except String (List (String × String))

/-- The body of `get_intent_and_parameters`: a function call whose arguments
fail to parse degrades to the apology text response instead of raising. -/
def get_intent_body (env : ClassifierEnv) : Except String IntentDict :=
  match env.apiResult with
  | .error e => .error e
  | .ok (.funcCall nm raw) =>
    match env.evalArgs raw with
    | .error _ => .ok (.response
        (some "I am sorry, I could not understand the response. Please try again."))
    | .ok args => .ok (.functionCall nm args)
  | .ok (.text c) => .ok (.response c)

/-- The decorated method: `@retry_with_backoff(max_retries=3)` around the
body.  The body catches every exception and re-raises a plain `Exception`,
which is not one of the decorator's transient classes, so a body failure is
fatal to the wrapper (never retried). -/
def get_intent_and_parameters (envs : ℕ → ClassifierEnv) :
    ApiUtils.RetryResult IntentDict × ℕ × List ℚ :=
  ApiUtils.retry_with_backoff 3 1 10 2 (fun i =>
    match get_intent_body (envs i) with
    | .ok d => ApiUtils.Outcome.ok d
    | .error e => ApiUtils.Outcome.fatal e)

end Classifier

/-! ## The dispatcher, `ChatView.post` from `backend/core/views.py`.

The conversation store is the list of this user's `Conversation` rows in
creation order; the classifier, the Jira client calls and the summarizer are
oracles.  The `[:10][::-1]` history slice only feeds the classifier oracle
and is not re-modelled.  The final `Conversation.objects.create` stores
`response_data.get('summary') or response_data.get('content')`; if that
value is `None`, the `NOT NULL` text column makes the insert fail and the
turn ends in the outer `except` (HTTP 500). -/

namespace Dispatcher

/-- A persisted `Conversation` row. -/
structure Msg where
  text : Option String
  is_user : Bool
  deriving DecidableEq, Repr

/-- Python `a or b` on optional strings: `a` when truthy (present and
non-empty), otherwise `b`. -/
def pyOr (a b : Option String) : Option String :=
  match a with
  | some s => if s = "" then b else some s
  | none => b

/-- The typed response envelope (§4.4): `payloadKey`/`payload` stand for the
operation-specific key (`issues`, `comment`, ...) and its raw value. -/
structure Envelope where
  type : String
  content : Option String := none
  payloadKey : Option String := none
  payload : Option String := none
  summary : Option String := none
  deriving DecidableEq, Repr

/-- The intent dict as inspected by the view (`"response" in result`, then
`"function_name" in result`, else the fallthrough branch). -/
inductive ViewIntent
  | response (content : Option String)
  | functionCall (nm : String)
  | neither
  deriving DecidableEq, Repr

/-- Envelope type and payload key per known operation of the dispatch
chain; `none` for an unknown function name. -/
def envelopeSpec : String → Option (String × String)
  | "get_user_issues" => some ("issue_list", "issues")
  | "get_issue" => some ("issue", "issue")
  | "add_comment_to_issue" => some ("comment", "comment")
  | "update_issue_status" => some ("status_update", "result")
  | "create_issue" => some ("new_issue", "issue")
  | "get_all_statuses" => some ("status_list", "statuses")
  | "search_users" => some ("user_list", "users")
  | _ => none

/-- Oracles for one chat turn. -/
structure ChatEnv where
  /-- `UserProfile.objects.get(user=request.user)` succeeds. -/
  profileExists : Bool
  /-- `OpenAIClient()` / `JiraClient()` construction succeeds. -/
  clientInitOk : Bool
  /-- `openai_client.get_intent_and_parameters(...)`: the returned dict, or
  the raised exception's message. -/
  intent : Except String ViewIntent
  /-- The dispatched Jira client call for the named operation: the raw
  result (`str()`-ed for summarization), or the raised exception's message. -/
  opCall : String → Except String String
  /-- `openai_client.summarize_text(...)`. -/
  summarize : String → Except String String

/-- Response body: an `{'error': ...}` payload or a §4.4 envelope. -/
inductive Body
  | error (msg : String)
  | envelope (e : Envelope)
  deriving DecidableEq, Repr

/-- Result of one `ChatView.post` turn: HTTP status, body, and the
conversation store afterwards. -/
structure ViewResult where
  status : ℕ
  body : Body
  msgs : List Msg
  deriving DecidableEq, Repr

/-- `ChatView.post` over the store `prior`; `message` is
`request.data.get('message')`. -/
def chat_post (env : ChatEnv) (prior : List Msg) (message : Option String) :
    ViewResult :=
  if pyFalsyStr message then ⟨400, .error "Message is required", prior⟩
  else
    let m := message.getD ""
    if ¬ env.profileExists then ⟨404, .error "User profile not found", prior⟩
    else
      let msgs1 := prior ++ [⟨some m, true⟩]
      if ¬ env.clientInitOk then
        ⟨500, .error "client initialization failed", msgs1⟩
      else
        match env.intent with
        | .error e => ⟨500, .error e, msgs1⟩
        | .ok intent =>
          let response_data : Envelope :=
            match intent with
            | .response s => { type := "text", content := s }
            | .neither =>
              { type := "text",
                content := some "I'm sorry, I couldn't understand the response." }
            | .functionCall nm =>
              match envelopeSpec nm with
              | none =>
                { type := "text",
                  content := some "I'm sorry, I couldn't handle that request." }
              | some spec =>
                match env.opCall nm with
                | .error e =>
                  { type := "text", content := some ("An error occurred: " ++ e) }
                | .ok r =>
                  match env.summarize r with
                  | .error e =>
                    { type := "text", content := some ("An error occurred: " ++ e) }
                  | .ok s =>
                    { type := spec.1, payloadKey := some spec.2, payload := some r,
                      summary := some s }
          match pyOr response_data.summary response_data.content with
          | none => ⟨500, .error "IntegrityError: NOT NULL constraint failed", msgs1⟩
          | some v => ⟨200, .envelope response_data, msgs1 ++ [⟨some v, false⟩]⟩

end Dispatcher

/-! ### Lemmas about the retry loops -/

/-- If the first `j` invocations starting at `attempt` are transient failures
and invocation `attempt + j` succeeds, with at least `j + 1` iterations left,
the loop returns the success value after exactly `j + 1` further invocations. -/
theorem ApiUtils.retryAux_ok {α : Type} (f : ℕ → ApiUtils.Outcome α) (mr : ℕ) (md bf : ℚ)
    (v : α) :
    ∀ (j rem attempt : ℕ) (delay : ℚ) (last : Option ApiUtils.PyExc) (acc : List ℚ),
      attempt + rem = mr →
      j + 1 ≤ rem →
      (∀ i, i < j → ∃ e, f (attempt + i) = .exc e) →
      f (attempt + j) = .ok v →
      (ApiUtils.retryAux f mr md bf rem attempt delay last acc).1 = .ok v ∧
      (ApiUtils.retryAux f mr md bf rem attempt delay last acc).2.1 = attempt + j + 1 := by
  intro j
  induction j with
  | zero =>
    intro rem attempt delay last acc hmr hrem _ hok
    obtain ⟨r, rfl⟩ : ∃ r, rem = r + 1 := ⟨rem - 1, by omega⟩
    simp only [Nat.add_zero] at hok
    simp [ApiUtils.retryAux, hok]
  | succ j ih =>
    intro rem attempt delay last acc hmr hrem hfail hok
    obtain ⟨e, he⟩ := hfail 0 (Nat.succ_pos j)
    simp only [Nat.add_zero] at he
    obtain ⟨r, rfl⟩ : ∃ r, rem = r + 1 := ⟨rem - 1, by omega⟩
    have hne : ¬ attempt = mr - 1 := by omega
    have hstep : ∀ (d : ℚ) (l : Option ApiUtils.PyExc) (a : List ℚ),
        (ApiUtils.retryAux f mr md bf r (attempt + 1) d l a).1 = .ok v ∧
        (ApiUtils.retryAux f mr md bf r (attempt + 1) d l a).2.1 = attempt + 1 + j + 1 := by
      intro d l a
      refine ih r (attempt + 1) d l a (by omega) (by omega) ?_ ?_
      · intro i hi
        obtain ⟨e', he'⟩ := hfail (i + 1) (by omega)
        exact ⟨e', by rw [show attempt + 1 + i = attempt + (i + 1) by omega]; exact he'⟩
      · rw [show attempt + 1 + j = attempt + (j + 1) by omega]; exact hok
    simp only [ApiUtils.retryAux, he]
    by_cases hrl : ApiUtils.pyTruthyQ
        (if ApiUtils.isRateLimit e then ApiUtils.get_retry_after e else none) = true
    · simp only [hrl, if_true]
      refine ⟨(hstep _ _ _).1, ?_⟩
      rw [(hstep _ _ _).2]; omega
    · simp only [Bool.not_eq_true] at hrl
      simp only [hrl, Bool.false_eq_true, if_false, hne]
      refine ⟨(hstep _ _ _).1, ?_⟩
      rw [(hstep _ _ _).2]; omega

/-- Same statement for the second wrapper's loop. -/
theorem JiraWrap.retryAux_success {ε α : Type} (g : ℕ → Except ε α) (mr : ℕ) (bf : ℚ) (v : α) :
    ∀ (j rem attempt : ℕ) (delay : ℚ) (acc : List ℚ),
      attempt + rem = mr →
      j + 1 ≤ rem →
      (∀ i, i < j → ∃ e, g (attempt + i) = .error e) →
      g (attempt + j) = .ok v →
      (JiraWrap.retryAux g mr bf rem attempt delay acc).1 = .ok v ∧
      (JiraWrap.retryAux g mr bf rem attempt delay acc).2.1 = attempt + j + 1 := by
  intro j
  induction j with
  | zero =>
    intro rem attempt delay acc hmr hrem _ hok
    obtain ⟨r, rfl⟩ : ∃ r, rem = r + 1 := ⟨rem - 1, by omega⟩
    simp only [Nat.add_zero] at hok
    simp [JiraWrap.retryAux, hok]
  | succ j ih =>
    intro rem attempt delay acc hmr hrem hfail hok
    obtain ⟨e, he⟩ := hfail 0 (Nat.succ_pos j)
    simp only [Nat.add_zero] at he
    obtain ⟨r, rfl⟩ : ∃ r, rem = r + 1 := ⟨rem - 1, by omega⟩
    have hne : ¬ attempt = mr - 1 := by omega
    have hstep := ih r (attempt + 1) (delay * bf) (delay :: acc) (by omega) (by omega)
      (fun i hi => by
        obtain ⟨e', he'⟩ := hfail (i + 1) (by omega)
        exact ⟨e', by rw [show attempt + 1 + i = attempt + (i + 1) by omega]; exact he'⟩)
      (by rw [show attempt + 1 + j = attempt + (j + 1) by omega]; exact hok)
    simp only [JiraWrap.retryAux, he, hne, if_false]
    refine ⟨hstep.1, ?_⟩
    rw [hstep.2]; omega

/-- The loop never invokes the callable more than `attempt + rem` times in
total: every iteration of `for attempt in range(max_retries)`, including a
rate-limited one, consumes one loop index. -/
theorem ApiUtils.retryAux_count_le {α : Type} (f : ℕ → ApiUtils.Outcome α) (mr : ℕ)
    (md bf : ℚ) :
    ∀ (rem attempt : ℕ) (delay : ℚ) (last : Option ApiUtils.PyExc) (acc : List ℚ),
      (ApiUtils.retryAux f mr md bf rem attempt delay last acc).2.1 ≤ attempt + rem := by
  intro rem
  induction rem with
  | zero => intro attempt delay last acc; simp [ApiUtils.retryAux]
  | succ r ih =>
    intro attempt delay last acc
    simp only [ApiUtils.retryAux]
    match hf : f attempt with
    | .ok v => simp
    | .fatal m => simp
    | .exc e =>
      simp only
      by_cases hrl : ApiUtils.pyTruthyQ
          (if ApiUtils.isRateLimit e then ApiUtils.get_retry_after e else none) = true
      · simp only [hrl, if_true]
        calc _ ≤ attempt + 1 + r := ih (attempt + 1) _ _ _
        _ = attempt + (r + 1) := by omega
      · simp only [Bool.not_eq_true] at hrl
        simp only [hrl, Bool.false_eq_true, if_false]
        by_cases hl : attempt = mr - 1
        · simp [hl]
        · simp only [hl, if_false]
          calc _ ≤ attempt + 1 + r := ih (attempt + 1) _ _ _
          _ = attempt + (r + 1) := by omega

/-- The sleep trace of a run started with accumulator `acc` is `acc.reverse`
followed by the trace of the run started empty. -/
theorem ApiUtils.retryAux_sleeps_acc {α : Type} (f : ℕ → ApiUtils.Outcome α) (mr : ℕ)
    (md bf : ℚ) :
    ∀ (rem attempt : ℕ) (delay : ℚ) (last : Option ApiUtils.PyExc) (acc : List ℚ),
      (ApiUtils.retryAux f mr md bf rem attempt delay last acc).2.2 =
        acc.reverse ++ (ApiUtils.retryAux f mr md bf rem attempt delay last []).2.2 := by
  intro rem
  induction rem with
  | zero => intro attempt delay last acc; simp [ApiUtils.retryAux]
  | succ r ih =>
    intro attempt delay last acc
    simp only [ApiUtils.retryAux]
    match hf : f attempt with
    | .ok v => simp
    | .fatal m => simp
    | .exc e =>
      simp only
      by_cases hrl : ApiUtils.pyTruthyQ
          (if ApiUtils.isRateLimit e then ApiUtils.get_retry_after e else none) = true
      · simp only [hrl, if_true]
        conv_lhs => rw [ih]
        conv_rhs => rw [ih]
        simp
      · simp only [Bool.not_eq_true] at hrl
        simp only [hrl, Bool.false_eq_true, if_false]
        by_cases hl : attempt = mr - 1
        · simp [hl]
        · simp only [hl, if_false]
          conv_lhs => rw [ih]
          conv_rhs => rw [ih]
          simp

/-! ### Claims about the retry wrappers -/

/-- C1: For every operation wrapped by the retry wrapper (either revision),
if the operation fails with a recognized transient failure on its first
`k - 1` invocations and succeeds on invocation `k`, with `k ≤ max_retries`,
then the wrapper returns the success value and the operation is invoked
exactly `k` times. -/
theorem C1_retry_success_on_attempt_k {α β ε : Type}
    (k max_retries : ℕ) (d0 md bf d1 bf' : ℚ)
    (f : ℕ → ApiUtils.Outcome α) (v : α) (g : ℕ → Except ε β) (w : β)
    (hk1 : 1 ≤ k) (hk2 : k ≤ max_retries)
    (hf : ∀ i, i < k - 1 → ∃ e, f i = ApiUtils.Outcome.exc e)
    (hfk : f (k - 1) = ApiUtils.Outcome.ok v)
    (hg : ∀ i, i < k - 1 → ∃ e, g i = Except.error e)
    (hgk : g (k - 1) = Except.ok w) :
    (ApiUtils.retry_with_backoff max_retries d0 md bf f).1 = ApiUtils.RetryResult.ok v ∧
    (ApiUtils.retry_with_backoff max_retries d0 md bf f).2.1 = k ∧
    (JiraWrap.retry_with_backoff max_retries d1 bf' g).1 = JiraWrap.Result.ok w ∧
    (JiraWrap.retry_with_backoff max_retries d1 bf' g).2.1 = k := by
  have h1 := ApiUtils.retryAux_ok f max_retries md bf v (k - 1) max_retries 0 d0 none []
    (by omega) (by omega) (fun i hi => by simpa using hf i hi) (by simpa using hfk)
  have h2 := JiraWrap.retryAux_success g max_retries bf' w (k - 1) max_retries 0 d1 []
    (by omega) (by omega) (fun i hi => by simpa using hg i hi) (by simpa using hgk)
  have hk : 0 + (k - 1) + 1 = k := by omega
  rw [hk] at h1 h2
  exact ⟨h1.1, h1.2, h2.1, h2.2⟩

/-- Witness for C1 at `k = 2`, `max_retries = 3`: one transient failure, then
success, for both wrappers. -/
theorem C1_witness :
    (ApiUtils.retry_with_backoff 3 1 10 2
        (fun i => if i = 0 then ApiUtils.Outcome.exc ApiUtils.PyExc.requestException
          else ApiUtils.Outcome.ok 7)).1 = ApiUtils.RetryResult.ok 7 ∧
    (ApiUtils.retry_with_backoff 3 1 10 2
        (fun i => if i = 0 then ApiUtils.Outcome.exc ApiUtils.PyExc.requestException
          else ApiUtils.Outcome.ok 7)).2.1 = 2 ∧
    (JiraWrap.retry_with_backoff 3 1 2
        (fun i => if i = 0 then Except.error "boom" else Except.ok 5)).1 =
      JiraWrap.Result.ok 5 ∧
    (JiraWrap.retry_with_backoff 3 1 2
        (fun i => if i = 0 then Except.error "boom" else Except.ok 5)).2.1 = 2 := by
  exact C1_retry_success_on_attempt_k 2 3 1 10 2 1 2 _ 7 _ 5 (by omega) (by omega)
    (fun i hi => ⟨ApiUtils.PyExc.requestException, by
      have h0 : i = 0 := by omega
      subst h0; rfl⟩)
    rfl
    (fun i hi => ⟨"boom", by
      have h0 : i = 0 := by omega
      subst h0; rfl⟩)
    rfl

/-- C2 counterexample: `max_retries = 2`; invocation 0 is a rate-limited
failure carrying retry-after 5, invocation 1 a transient failure, invocation 2
would succeed.  If the rate-limited retry did not count against the attempt
budget, two ordinary attempts would remain after the rate-limited wait and the
wrapper would return `ok 42` after 3 invocations.  Actually the loop counter
advanced during the rate-limited retry, so the wrapper stops after 2
invocations (having slept exactly the 5-second retry-after) and re-raises. -/
theorem C2_counterexample :
    (ApiUtils.retry_with_backoff 2 1 10 2 (fun i =>
        if i = 0 then ApiUtils.Outcome.exc (ApiUtils.PyExc.rateLimitOpenAI (some 5))
        else if i = 1 then ApiUtils.Outcome.exc ApiUtils.PyExc.requestException
        else ApiUtils.Outcome.ok 42)) =
      (ApiUtils.RetryResult.raised (some ApiUtils.PyExc.requestException), 2, [5]) ∧
    (ApiUtils.retry_with_backoff 2 1 10 2 (fun i =>
        if i = 0 then ApiUtils.Outcome.exc (ApiUtils.PyExc.rateLimitOpenAI (some 5))
        else if i = 1 then ApiUtils.Outcome.exc ApiUtils.PyExc.requestException
        else ApiUtils.Outcome.ok 42)).1 ≠ ApiUtils.RetryResult.ok 42 := by
  constructor
  · decide
  · decide

/-- C2 (amended): when a failure carries a truthy explicit retry-after
duration (a rate-limit failure), the wrapper sleeps exactly that duration
instead of the computed exponential backoff (the first recorded sleep is the
retry-after value, not the backoff delay) — but the rate-limited retry DOES
count against the maximum-attempts budget: every invocation, rate-limited or
not, consumes one index of `range(max_retries)`, so the operation is never
invoked more than `max_retries` times. -/
theorem C2_rate_limit_sleep_and_budget {α : Type} (f : ℕ → ApiUtils.Outcome α)
    (max_retries : ℕ) (d0 md bf : ℚ) (e : ApiUtils.PyExc) (r : ℚ)
    (hmr : 1 ≤ max_retries) (h0 : f 0 = ApiUtils.Outcome.exc e)
    (hrl : ApiUtils.isRateLimit e = true)
    (hra : ApiUtils.get_retry_after e = some r) (hr : r ≠ 0) :
    (ApiUtils.retry_with_backoff max_retries d0 md bf f).2.2.head? = some r ∧
    ∀ (g : ℕ → ApiUtils.Outcome α),
      (ApiUtils.retry_with_backoff max_retries d0 md bf g).2.1 ≤ max_retries := by
  constructor
  · obtain ⟨m, rfl⟩ : ∃ m, max_retries = m + 1 := ⟨max_retries - 1, by omega⟩
    have htruthy : ApiUtils.pyTruthyQ (some r) = true := by simp [ApiUtils.pyTruthyQ, hr]
    rw [ApiUtils.retry_with_backoff]
    simp only [ApiUtils.retryAux, h0, hrl, hra, if_true, htruthy]
    rw [ApiUtils.retryAux_sleeps_acc]
    simp
  · intro g
    have h := ApiUtils.retryAux_count_le g max_retries md bf max_retries 0 d0 none []
    simpa [ApiUtils.retry_with_backoff] using h

/-- Witness for the amended C2 at the counterexample's input. -/
theorem C2_amended_witness :
    (ApiUtils.retry_with_backoff 2 1 10 2 (fun i =>
        if i = 0 then ApiUtils.Outcome.exc (ApiUtils.PyExc.rateLimitOpenAI (some 5))
        else if i = 1 then ApiUtils.Outcome.exc ApiUtils.PyExc.requestException
        else ApiUtils.Outcome.ok 42)).2.2.head? = some 5 ∧
    (ApiUtils.retry_with_backoff 2 1 10 2 (fun i =>
        if i = 0 then ApiUtils.Outcome.exc (ApiUtils.PyExc.rateLimitOpenAI (some 5))
        else if i = 1 then ApiUtils.Outcome.exc ApiUtils.PyExc.requestException
        else ApiUtils.Outcome.ok 42)).2.1 ≤ 2 := by
  have h := C2_rate_limit_sleep_and_budget (fun i =>
        if i = 0 then ApiUtils.Outcome.exc (ApiUtils.PyExc.rateLimitOpenAI (some 5))
        else if i = 1 then ApiUtils.Outcome.exc ApiUtils.PyExc.requestException
        else ApiUtils.Outcome.ok 42) 2 1 10 2
      (ApiUtils.PyExc.rateLimitOpenAI (some 5)) 5
      (by omega) rfl rfl rfl (by norm_num)
  exact ⟨h.1, h.2 _⟩

/-! ### Claims about the dispatcher and the classifier -/

/-- C3: a chat turn on a non-empty message and an empty conversation store
that completes successfully (HTTP 200) persists exactly two rows: the
inbound message flagged as from the end user, then one outbound assistant
message, and no others. -/
theorem C3_successful_turn_persists_two_messages (env : Dispatcher.ChatEnv) (m : String)
    (hm : m ≠ "")
    (h200 : (Dispatcher.chat_post env [] (some m)).status = 200) :
    ∃ v, (Dispatcher.chat_post env [] (some m)).msgs =
      [⟨some m, true⟩, ⟨some v, false⟩] := by
  by_cases hp : env.profileExists = true
  swap
  · simp [Dispatcher.chat_post, pyFalsyStr, hm, hp] at h200
  by_cases hc : env.clientInitOk = true
  swap
  · simp [Dispatcher.chat_post, pyFalsyStr, hm, hp, hc] at h200
  cases hi : env.intent with
  | error e => simp [Dispatcher.chat_post, pyFalsyStr, hm, hp, hc, hi] at h200
  | ok intent =>
    cases intent with
    | response s =>
      cases s with
      | none =>
        simp [Dispatcher.chat_post, pyFalsyStr, hm, hp, hc, hi, Dispatcher.pyOr] at h200
      | some str =>
        exact ⟨str, by
          simp [Dispatcher.chat_post, pyFalsyStr, hm, hp, hc, hi, Dispatcher.pyOr]⟩
    | neither =>
      exact ⟨"I'm sorry, I couldn't understand the response.", by
        simp [Dispatcher.chat_post, pyFalsyStr, hm, hp, hc, hi, Dispatcher.pyOr]⟩
    | functionCall nm =>
      cases hs : Dispatcher.envelopeSpec nm with
      | none =>
        exact ⟨"I'm sorry, I couldn't handle that request.", by
          simp [Dispatcher.chat_post, pyFalsyStr, hm, hp, hc, hi, hs, Dispatcher.pyOr]⟩
      | some spec =>
        cases ho : env.opCall nm with
        | error e =>
          exact ⟨"An error occurred: " ++ e, by
            simp [Dispatcher.chat_post, pyFalsyStr, hm, hp, hc, hi, hs, ho,
              Dispatcher.pyOr]⟩
        | ok r =>
          cases hsum : env.summarize r with
          | error e =>
            exact ⟨"An error occurred: " ++ e, by
              simp [Dispatcher.chat_post, pyFalsyStr, hm, hp, hc, hi, hs, ho, hsum,
                Dispatcher.pyOr]⟩
          | ok s =>
            by_cases hs0 : s = ""
            · simp [Dispatcher.chat_post, pyFalsyStr, hm, hp, hc, hi, hs, ho, hsum,
                hs0, Dispatcher.pyOr] at h200
            · exact ⟨s, by
                simp [Dispatcher.chat_post, pyFalsyStr, hm, hp, hc, hi, hs, ho, hsum,
                  hs0, Dispatcher.pyOr]⟩

/-- Witness for C3: a text turn on message `"hello"`. -/
theorem C3_witness :
    ∃ v, (Dispatcher.chat_post
        ⟨true, true, .ok (.response (some "Hi! How can I help?")),
          fun _ => .ok "", fun _ => .ok ""⟩ [] (some "hello")).msgs =
      [⟨some "hello", true⟩, ⟨some v, false⟩] :=
  C3_successful_turn_persists_two_messages _ "hello" (by decide) (by rfl)

/-- C8: when the dispatched tracker operation fails, the dispatcher returns a
`{type: text}` envelope whose content is a human-readable error description,
the turn still returns HTTP 200, and the error text is what gets persisted as
the outbound message. -/
theorem C8_operation_failure_yields_text_envelope_200 (env : Dispatcher.ChatEnv)
    (prior : List Dispatcher.Msg) (m nm ty key e : String)
    (hm : m ≠ "") (hp : env.profileExists = true) (hc : env.clientInitOk = true)
    (hi : env.intent = .ok (.functionCall nm))
    (hs : Dispatcher.envelopeSpec nm = some (ty, key))
    (ho : env.opCall nm = .error e) :
    (Dispatcher.chat_post env prior (some m)).status = 200 ∧
    (Dispatcher.chat_post env prior (some m)).body =
      .envelope { type := "text", content := some ("An error occurred: " ++ e) } ∧
    (Dispatcher.chat_post env prior (some m)).msgs =
      prior ++ [⟨some m, true⟩, ⟨some ("An error occurred: " ++ e), false⟩] := by
  refine ⟨?_, ?_, ?_⟩ <;>
    simp [Dispatcher.chat_post, pyFalsyStr, hm, hp, hc, hi, hs, ho, Dispatcher.pyOr]

/-- Witness for C8: `update_issue_status` fails with a not-found error. -/
theorem C8_witness :
    (Dispatcher.chat_post
        ⟨true, true, .ok (.functionCall "update_issue_status"),
          fun _ => .error "Issue TEST-1 not found", fun _ => .ok ""⟩
        [] (some "move TEST-1 to done")).status = 200 ∧
    (Dispatcher.chat_post
        ⟨true, true, .ok (.functionCall "update_issue_status"),
          fun _ => .error "Issue TEST-1 not found", fun _ => .ok ""⟩
        [] (some "move TEST-1 to done")).body =
      .envelope { type := "text",
                  content := some ("An error occurred: " ++ "Issue TEST-1 not found") } ∧
    (Dispatcher.chat_post
        ⟨true, true, .ok (.functionCall "update_issue_status"),
          fun _ => .error "Issue TEST-1 not found", fun _ => .ok ""⟩
        [] (some "move TEST-1 to done")).msgs =
      [] ++ [⟨some "move TEST-1 to done", true⟩,
        ⟨some ("An error occurred: " ++ "Issue TEST-1 not found"), false⟩] :=
  C8_operation_failure_yields_text_envelope_200 _ _ _ _ "status_update" "result" _
    (by decide) rfl rfl rfl rfl rfl

/-- C9: when the model returns a structured call whose arguments do not parse
as the expected shape, the classifier returns the apologizing `{response}`
text result (from the first invocation, no retries) instead of raising an
error that fails the whole turn. -/
theorem C9_unparseable_arguments_degrade_to_apology (envs : ℕ → Classifier.ClassifierEnv)
    (nm raw err : String)
    (hapi : (envs 0).apiResult = .ok (.funcCall nm raw))
    (heval : (envs 0).evalArgs raw = .error err) :
    (Classifier.get_intent_and_parameters envs).1 =
      ApiUtils.RetryResult.ok (Classifier.IntentDict.response
        (some "I am sorry, I could not understand the response. Please try again.")) ∧
    (Classifier.get_intent_and_parameters envs).2.1 = 1 := by
  constructor <;>
    simp [Classifier.get_intent_and_parameters, ApiUtils.retry_with_backoff,
      ApiUtils.retryAux, Classifier.get_intent_body, hapi, heval]

/-- Witness for C9: arguments `"not a dict"` fail to parse. -/
theorem C9_witness :
    (Classifier.get_intent_and_parameters
        (fun _ => ⟨.ok (.funcCall "get_issue" "not a dict"),
          fun _ => .error "SyntaxError: invalid syntax"⟩)).1 =
      ApiUtils.RetryResult.ok (Classifier.IntentDict.response
        (some "I am sorry, I could not understand the response. Please try again.")) ∧
    (Classifier.get_intent_and_parameters
        (fun _ => ⟨.ok (.funcCall "get_issue" "not a dict"),
          fun _ => .error "SyntaxError: invalid syntax"⟩)).2.1 = 1 :=
  C9_unparseable_arguments_degrade_to_apology _ "get_issue" "not a dict"
    "SyntaxError: invalid syntax" rfl rfl

/-! ### Claim about scrum updates -/

/-- C7: after a first successful scrum-update submission for a (user, date),
a second submission for the same pair is rejected as a conflict
(`ValueError "Scrum update already exists for ..."`) and leaves the store
unchanged; the record created by the first submission is in the store with
the submitted owner, date and text; and creation preserves the
at-most-one-per-(user, date) uniqueness invariant. -/
theorem C7_scrum_update_unique_per_user_date
    (db db' : List Scrum.ScrumRec) (user today : ℕ) (name1 name2 upd1 upd2 : String)
    (tag1 tag2 : String → String → Except String Unit)
    (r : Scrum.ScrumRec) (res : List String)
    (h1 : Scrum.create_scrum_update db user name1 today upd1 tag1 = (.ok (r, res), db')) :
    (Scrum.create_scrum_update db' user name2 today upd2 tag2).1 =
      .error ("Scrum update already exists for " ++ toString today) ∧
    (Scrum.create_scrum_update db' user name2 today upd2 tag2).2 = db' ∧
    r ∈ db' ∧ r.user = user ∧ r.date = today ∧ r.updates = upd1 ∧
    (Scrum.atMostOnePerUserDate db → Scrum.atMostOnePerUserDate db') := by
  cases hg : Scrum.get_scrum_update db user today with
  | some s => simp [Scrum.create_scrum_update, hg] at h1
  | none =>
    simp only [Scrum.create_scrum_update, hg, Prod.mk.injEq, Except.ok.injEq] at h1
    obtain ⟨⟨hr, -⟩, hdb⟩ := h1
    subst hdb
    subst hr
    have hfind : Scrum.get_scrum_update
        (db ++ [(⟨user, today, upd1⟩ : Scrum.ScrumRec)]) user today =
        some ⟨user, today, upd1⟩ := by
      rw [Scrum.get_scrum_update] at hg ⊢
      rw [List.find?_append, hg]
      simp
    refine ⟨?_, ?_, ?_, rfl, rfl, rfl, ?_⟩
    · simp [Scrum.create_scrum_update, hfind]
    · simp [Scrum.create_scrum_update, hfind]
    · simp
    · intro hinv u d
      rw [List.filter_append]
      by_cases hu : user = u ∧ today = d
      · obtain ⟨h1, h2⟩ := hu
        subst h1
        subst h2
        have hnil : db.filter
            (fun x : Scrum.ScrumRec => x.user = user && x.date = today) = [] := by
          rw [List.filter_eq_nil_iff]
          intro a ha hpa
          have := List.find?_eq_none.mp hg a ha
          exact this hpa
        rw [hnil]
        calc ([] ++ List.filter
              (fun x : Scrum.ScrumRec => x.user = user && x.date = today)
              [(⟨user, today, upd1⟩ : Scrum.ScrumRec)]).length
            ≤ [(⟨user, today, upd1⟩ : Scrum.ScrumRec)].length := by
              simp [List.length_filter_le]
          _ = 1 := rfl
      · have hpx : ((⟨user, today, upd1⟩ : Scrum.ScrumRec).user = u &&
            (⟨user, today, upd1⟩ : Scrum.ScrumRec).date = d) = false := by
          simp only [Bool.and_eq_false_iff, decide_eq_false_iff_not]
          by_cases h : user = u
          · exact Or.inr (fun hd => hu ⟨h, hd⟩)
          · exact Or.inl h
        simp only [List.filter_cons, List.filter_nil, hpx, Bool.false_eq_true,
          if_false, List.append_nil]
        exact hinv u d

/-- Witness for C7: a second submission for (user 1, day 7). -/
theorem C7_witness :
    (Scrum.create_scrum_update [⟨1, 7, "Did X"⟩] 1 "Bo" 7 "Did Y"
        (fun _ _ => .ok ())).1 =
      .error ("Scrum update already exists for " ++ toString 7) ∧
    (Scrum.create_scrum_update [⟨1, 7, "Did X"⟩] 1 "Bo" 7 "Did Y"
        (fun _ _ => .ok ())).2 = [⟨1, 7, "Did X"⟩] ∧
    (⟨1, 7, "Did X"⟩ : Scrum.ScrumRec) ∈ [(⟨1, 7, "Did X"⟩ : Scrum.ScrumRec)] ∧
    (⟨1, 7, "Did X"⟩ : Scrum.ScrumRec).user = 1 ∧
    (⟨1, 7, "Did X"⟩ : Scrum.ScrumRec).date = 7 ∧
    (⟨1, 7, "Did X"⟩ : Scrum.ScrumRec).updates = "Did X" ∧
    (Scrum.atMostOnePerUserDate [] → Scrum.atMostOnePerUserDate [⟨1, 7, "Did X"⟩]) :=
  C7_scrum_update_unique_per_user_date [] [⟨1, 7, "Did X"⟩] 1 7 "Al" "Bo"
    "Did X" "Did Y" (fun _ _ => .ok ()) (fun _ _ => .ok ()) ⟨1, 7, "Did X"⟩ [] rfl

/-! ### Lemmas about `splitChar` and issue-key validation -/

/-- `splitChar` never returns the empty list. -/
theorem JiraApp.splitChar_ne_nil (sep : Char) (cs : List Char) :
    JiraApp.splitChar sep cs ≠ [] := by
  cases cs with
  | nil => simp [JiraApp.splitChar]
  | cons c rest =>
    simp only [JiraApp.splitChar]
    cases h : JiraApp.splitChar sep rest with
    | nil => simp
    | cons g gs => by_cases hc : c = sep <;> simp [hc]

/-- A separator-free list splits into itself. -/
theorem JiraApp.splitChar_of_not_mem (sep : Char) (cs : List Char) (h : sep ∉ cs) :
    JiraApp.splitChar sep cs = [cs] := by
  induction cs with
  | nil => rfl
  | cons c rest ih =>
    have hc : ¬ c = sep := fun he => h (by simp [he])
    have hr : sep ∉ rest := fun hm => h (by simp [hm])
    simp [JiraApp.splitChar, ih hr, hc]

/-- A one-part split means the input was separator-free. -/
theorem JiraApp.splitChar_eq_single (sep : Char) (cs : List Char) :
    ∀ x, JiraApp.splitChar sep cs = [x] → cs = x ∧ sep ∉ x := by
  induction cs with
  | nil =>
    intro x h
    simp only [JiraApp.splitChar, List.cons.injEq, and_true] at h
    exact ⟨h, by rw [← h]; simp⟩
  | cons c rest ih =>
    intro x h
    simp only [JiraApp.splitChar] at h
    cases hs : JiraApp.splitChar sep rest with
    | nil => exact absurd hs (JiraApp.splitChar_ne_nil sep rest)
    | cons g gs =>
      rw [hs] at h
      by_cases hc : c = sep
      · simp [hc] at h
      · simp only [hc, if_false, List.cons.injEq] at h
        obtain ⟨hx, hgs⟩ := h
        obtain ⟨hrest, hmem⟩ := ih g (by rw [hs, hgs])
        subst hrest
        refine ⟨hx, ?_⟩
        rw [← hx]
        simp only [List.mem_cons, not_or]
        exact ⟨fun he => hc he.symm, hmem⟩

/-- A two-part split decomposes the input around one separator occurrence. -/
theorem JiraApp.splitChar_eq_pair (sep : Char) (cs : List Char) :
    ∀ a b, JiraApp.splitChar sep cs = [a, b] →
      cs = a ++ sep :: b ∧ sep ∉ a ∧ sep ∉ b := by
  induction cs with
  | nil => intro a b h; simp [JiraApp.splitChar] at h
  | cons c rest ih =>
    intro a b h
    simp only [JiraApp.splitChar] at h
    cases hs : JiraApp.splitChar sep rest with
    | nil => exact absurd hs (JiraApp.splitChar_ne_nil sep rest)
    | cons g gs =>
      rw [hs] at h
      by_cases hc : c = sep
      · simp only [hc, if_true, List.cons.injEq] at h
        obtain ⟨ha, hg, hgs⟩ := h
        obtain ⟨hrest, hb⟩ := JiraApp.splitChar_eq_single sep rest b (by rw [hs, hg, hgs])
        subst ha
        subst hrest
        subst hc
        exact ⟨rfl, by simp, hb⟩
      · simp only [hc, if_false, List.cons.injEq] at h
        obtain ⟨ha, hgs⟩ := h
        obtain ⟨hrest, hma, hmb⟩ := ih g b (by rw [hs, hgs])
        subst hrest
        refine ⟨by rw [← ha, List.cons_append], ?_, hmb⟩
        rw [← ha]
        simp only [List.mem_cons, not_or]
        exact ⟨fun he => hc he.symm, hma⟩

/-- Joining with the separator: splitting `a ++ sep :: b` with separator-free
`a` and `b` yields exactly `[a, b]`. -/
theorem JiraApp.splitChar_append_sep (sep : Char) (a b : List Char)
    (ha : sep ∉ a) (hb : sep ∉ b) :
    JiraApp.splitChar sep (a ++ sep :: b) = [a, b] := by
  induction a with
  | nil =>
    simp only [List.nil_append, JiraApp.splitChar,
      JiraApp.splitChar_of_not_mem sep b hb]
    simp
  | cons x a' ih =>
    have hx : ¬ x = sep := fun he => ha (by simp [he])
    have ha' : sep ∉ a' := fun hm => ha (by simp [hm])
    simp [JiraApp.splitChar, ih ha', hx]

/-- The number of parts is the separator count plus one. -/
theorem JiraApp.splitChar_length (sep : Char) (cs : List Char) :
    (JiraApp.splitChar sep cs).length = cs.count sep + 1 := by
  induction cs with
  | nil => simp [JiraApp.splitChar]
  | cons c rest ih =>
    simp only [JiraApp.splitChar]
    cases hs : JiraApp.splitChar sep rest with
    | nil => exact absurd hs (JiraApp.splitChar_ne_nil sep rest)
    | cons g gs =>
      rw [hs] at ih
      simp only [List.length_cons] at ih
      by_cases hc : c = sep
      · subst hc
        simp only [eq_self_iff_true, if_true, List.length_cons, List.count_cons_self]
        omega
      · have hsc : sep ≠ c := fun he => hc he.symm
        simp only [hc, if_false, List.length_cons, List.count_cons_of_ne hsc]
        omega

/-- `_validate_issue_key` accepts exactly the keys made of one non-empty
alphanumeric segment, a single hyphen, and one non-empty digits-only
segment. -/
theorem JiraApp.validate_issue_key_ok_iff (key : String) :
    JiraApp.validate_issue_key key = .ok () ↔
      ∃ a b : List Char, key.toList = a ++ '-' :: b ∧ a ≠ [] ∧
        (∀ c ∈ a, c.isAlphanum = true) ∧ b ≠ [] ∧ (∀ c ∈ b, c.isDigit = true) := by
  constructor
  · intro h
    rw [JiraApp.validate_issue_key] at h
    by_cases h0 : key = "" ∨ ¬ key.toList.contains '-'
    · rw [if_pos h0] at h
      exact absurd h (by simp)
    · rw [if_neg h0] at h
      by_cases hlen : (JiraApp.splitChar '-' key.toList).length = 2
      swap
      · rw [if_neg hlen] at h
        exact absurd h (by simp)
      · rw [if_pos hlen] at h
        obtain ⟨p0, p1, hs⟩ := List.length_eq_two.mp hlen
        rw [hs] at h
        simp only [List.getD_cons_zero, List.getD_cons_succ] at h
        by_cases hv : ¬ JiraApp.strIsAlnum p0 = true ∨ ¬ JiraApp.strIsDigit p1 = true
        · rw [if_pos hv] at h
          exact absurd h (by simp)
        · push_neg at hv
          obtain ⟨hA, hB⟩ := hv
          obtain ⟨hcs, -, -⟩ := JiraApp.splitChar_eq_pair '-' key.toList p0 p1 hs
          refine ⟨p0, p1, hcs, ?_, ?_, ?_, ?_⟩
          · intro he
            rw [JiraApp.strIsAlnum, he] at hA
            simp at hA
          · intro c hc
            have hAA := hA
            rw [JiraApp.strIsAlnum, Bool.and_eq_true, List.all_eq_true] at hAA
            exact hAA.2 c hc
          · intro he
            rw [JiraApp.strIsDigit, he] at hB
            simp at hB
          · intro c hc
            rw [JiraApp.strIsDigit, Bool.and_eq_true, List.all_eq_true] at hB
            exact hB.2 c hc
  · rintro ⟨a, b, hcs, ha0, haAll, hb0, hbAll⟩
    have hmemA : '-' ∉ a := fun hm => absurd (haAll '-' hm) (by decide)
    have hmemB : '-' ∉ b := fun hm => absurd (hbAll '-' hm) (by decide)
    have hsplit : JiraApp.splitChar '-' key.toList = [a, b] := by
      rw [hcs]
      exact JiraApp.splitChar_append_sep '-' a b hmemA hmemB
    have hne : ¬(key = "" ∨ ¬ key.toList.contains '-') := by
      push_neg
      constructor
      · intro he
        rw [he] at hcs
        exact absurd hcs.symm (by simp)
      · rw [hcs]
        simp
    have hA : JiraApp.strIsAlnum a = true := by
      rw [JiraApp.strIsAlnum, Bool.and_eq_true, List.all_eq_true]
      refine ⟨by simp [ha0], fun c hc => haAll c hc⟩
    have hB : JiraApp.strIsDigit b = true := by
      rw [JiraApp.strIsDigit, Bool.and_eq_true, List.all_eq_true]
      refine ⟨by simp [hb0], fun c hc => hbAll c hc⟩
    rw [JiraApp.validate_issue_key, if_neg hne, hsplit]
    simp [hA, hB]

/-- On a key containing two or more hyphens, `_validate_issue_key`'s
two-variable unpack of the split raises `ValueError`. -/
theorem JiraApp.validate_issue_key_multi_hyphen (key : String)
    (h2 : 2 ≤ key.toList.count '-') :
    JiraApp.validate_issue_key key =
      .error (.valueError "too many values to unpack (expected 2)") := by
  have hne : ¬(key = "" ∨ ¬ key.toList.contains '-') := by
    push_neg
    constructor
    · intro he
      rw [he] at h2
      simp at h2
    · have hm : '-' ∈ key.toList := by
        by_contra hnm
        rw [List.count_eq_zero_of_not_mem hnm] at h2
        omega
      simpa using hm
  have hlen : ¬ (JiraApp.splitChar '-' key.toList).length = 2 := by
    rw [JiraApp.splitChar_length]
    omega
  rw [JiraApp.validate_issue_key, if_neg hne, if_neg hlen]

/-! ### Claims about the Jira client -/

/-- C4 counterexample: on a concrete environment with valid statuses
"To Do", "In Progress", "Done", fetching issues with status "Bogus" does
not fail with a `ValidationError` — it fails with the generic
`JiraClientError` wrapping the validation message (the `except Exception`
clause re-raises it as "Unexpected error fetching issues: ...") — though the
search endpoint is indeed never invoked. -/
theorem C4_counterexample :
    JiraApp.failsWithValidationError
      (JiraApp.get_user_issues demoEnv "alice" (some "Bogus") 50).1 = false ∧
    (JiraApp.get_user_issues demoEnv "alice" (some "Bogus") 50).1 =
      .error (.clientError
        "Unexpected error fetching issues: ['Invalid status: Bogus. Valid statuses are: To Do, In Progress, Done']"
        none) ∧
    "search_issues" ∉ (JiraApp.get_user_issues demoEnv "alice" (some "Bogus") 50).2 :=
  ⟨rfl, rfl, by decide⟩

/-- C4 (amended): fetching issues with a truthy status whose name is not in
the effective valid-status set (case-insensitively) fails before the search
— `search_issues` is never invoked — but with the generic `JiraClientError`
whose message wraps ("Unexpected error fetching issues: ...") the validation
message listing the actual valid status set; the `ValidationError` raised by
`_build_jql_query` is swallowed by the method's own `except Exception`
clause and never escapes. -/
theorem C4_invalid_status_wrapped_error_never_searches (env : JiraApp.ClientEnv)
    (uid st : String) (mx : ℕ) (valid : List String)
    (hst : st ≠ "")
    (hvalid : JiraApp.effectiveValidStatuses env = .ok valid)
    (hnot : (valid.map pyUpper).contains (pyUpper st) = false) :
    (JiraApp.get_user_issues env uid (some st) mx).1 =
      .error (.clientError ("Unexpected error fetching issues: " ++
        JiraApp.pyStr (.validationError ("Invalid status: " ++ st ++
          ". Valid statuses are: " ++ String.intercalate ", " valid))) none) ∧
    JiraApp.failsWithValidationError
      (JiraApp.get_user_issues env uid (some st) mx).1 = false ∧
    "search_issues" ∉ (JiraApp.get_user_issues env uid (some st) mx).2 := by
  have hb : JiraApp.build_jql_query env uid (some st) =
      (.error (.validationError ("Invalid status: " ++ st ++
        ". Valid statuses are: " ++ String.intercalate ", " valid)),
        JiraApp.validStatusesLog env) := by
    simp [JiraApp.build_jql_query, pyFalsyStr, hst, hvalid]
    simpa using hnot
  have hlog : "search_issues" ∉ JiraApp.validStatusesLog env := by
    rw [JiraApp.validStatusesLog]
    cases env.cachedValidStatuses with
    | none => decide
    | some v =>
      by_cases hv : v.isEmpty
      · simp only [hv, if_true]
        decide
      · simp only [hv, Bool.false_eq_true, if_false]
        decide
  refine ⟨?_, ?_, ?_⟩
  · simp [JiraApp.get_user_issues, hb, JiraApp.wrapIssues]
  · simp [JiraApp.get_user_issues, hb, JiraApp.wrapIssues,
      JiraApp.failsWithValidationError, JiraApp.isValidationError]
  · simpa [JiraApp.get_user_issues, hb] using hlog

/-- Witness for the amended C4 at the counterexample's input. -/
theorem C4_witness :
    (JiraApp.get_user_issues demoEnv "alice" (some "Bogus") 50).1 =
      .error (.clientError ("Unexpected error fetching issues: " ++
        JiraApp.pyStr (.validationError ("Invalid status: " ++ "Bogus" ++
          ". Valid statuses are: " ++
          String.intercalate ", " ["To Do", "In Progress", "Done"]))) none) ∧
    JiraApp.failsWithValidationError
      (JiraApp.get_user_issues demoEnv "alice" (some "Bogus") 50).1 = false ∧
    "search_issues" ∉ (JiraApp.get_user_issues demoEnv "alice" (some "Bogus") 50).2 :=
  C4_invalid_status_wrapped_error_never_searches demoEnv "alice" "Bogus" 50
    ["To Do", "In Progress", "Done"] (by decide) rfl (by decide)

/-- C5 counterexample: on a concrete environment whose transitions are
"In Progress" and "Done", updating to status "Nonexistent" does not fail
with a `ValidationError` — it fails with the generic `JiraClientError`
wrapping the validation message — though the transition endpoint is indeed
never invoked. -/
theorem C5_counterexample :
    JiraApp.failsWithValidationError
      (JiraApp.update_issue_status demoEnv "TEST-1" "Nonexistent").1 = false ∧
    (JiraApp.update_issue_status demoEnv "TEST-1" "Nonexistent").1 =
      .error (.clientError
        "Unexpected error updating issue status: ['Invalid status transition. Valid statuses are: in progress, done']"
        none) ∧
    "transition_issue" ∉ (JiraApp.update_issue_status demoEnv "TEST-1" "Nonexistent").2 :=
  ⟨rfl, rfl, by decide⟩

/-- C5 (amended): `update_issue_status` on a valid key, when the requested
status matches no available transition — neither case-insensitively exactly
nor as a case-insensitive substring of a transition name — never invokes the
transition endpoint, but fails with the generic `JiraClientError` whose
message wraps ("Unexpected error updating issue status: ...") the validation
message listing the lowercased transition names; the `ValidationError`
raised in the body is swallowed by `except Exception`. -/
theorem C5_unmatched_transition_wrapped_error_never_transitions
    (env : JiraApp.ClientEnv) (key new_status cur : String)
    (ts : List (String × String))
    (hkey : JiraApp.validate_issue_key key = .ok ())
    (hissue : env.getIssue = .ok cur)
    (hts : env.transitions = .ok ts)
    (hmatch : JiraApp.findTransitionId (JiraApp.transitionsDict ts)
      (pyLower new_status) = none) :
    (JiraApp.update_issue_status env key new_status).1 =
      .error (.clientError ("Unexpected error updating issue status: " ++
        JiraApp.pyStr (.validationError
          ("Invalid status transition. Valid statuses are: " ++
            String.intercalate ", "
              ((JiraApp.transitionsDict ts).map (fun p => p.1))))) none) ∧
    JiraApp.failsWithValidationError
      (JiraApp.update_issue_status env key new_status).1 = false ∧
    "transition_issue" ∉ (JiraApp.update_issue_status env key new_status).2 := by
  refine ⟨?_, ?_, ?_⟩ <;>
    simp [JiraApp.update_issue_status, hkey, hissue, hts, hmatch, JiraApp.wrapUpdate,
      JiraApp.failsWithValidationError, JiraApp.isValidationError]

/-- Witness for the amended C5 at the counterexample's input. -/
theorem C5_witness :
    (JiraApp.update_issue_status demoEnv "TEST-1" "Nonexistent").1 =
      .error (.clientError ("Unexpected error updating issue status: " ++
        JiraApp.pyStr (.validationError
          ("Invalid status transition. Valid statuses are: " ++
            String.intercalate ", "
              ((JiraApp.transitionsDict [("In Progress", "21"), ("Done", "31")]).map
                (fun p => p.1))))) none) ∧
    JiraApp.failsWithValidationError
      (JiraApp.update_issue_status demoEnv "TEST-1" "Nonexistent").1 = false ∧
    "transition_issue" ∉
      (JiraApp.update_issue_status demoEnv "TEST-1" "Nonexistent").2 :=
  C5_unmatched_transition_wrapped_error_never_transitions demoEnv "TEST-1"
    "Nonexistent" "To Do" [("In Progress", "21"), ("Done", "31")] rfl rfl rfl rfl

/-- C10: issue-key validation accepts exactly the strings of the form one
non-empty alphanumeric segment, a single hyphen, then a non-empty
digits-only segment; and on any key with two or more hyphens the two-way
split's unpack raises an unhandled `ValueError`, so `add_comment_to_issue`
and `update_issue_status` fail with the generic client error wrapping
"Unexpected error ...", not with a validation error. -/
theorem C10_multi_hyphen_key_generic_error (env : JiraApp.ClientEnv)
    (key comment new_status : String) :
    (JiraApp.validate_issue_key key = .ok () ↔
      ∃ a b : List Char, key.toList = a ++ '-' :: b ∧ a ≠ [] ∧
        (∀ c ∈ a, c.isAlphanum = true) ∧ b ≠ [] ∧ (∀ c ∈ b, c.isDigit = true)) ∧
    (2 ≤ key.toList.count '-' →
      (JiraApp.add_comment_to_issue env key comment none).1 =
        .error (.clientError ("Unexpected error adding comment: " ++
          JiraApp.pyStr (.valueError "too many values to unpack (expected 2)"))
          none) ∧
      JiraApp.failsWithValidationError
        (JiraApp.add_comment_to_issue env key comment none).1 = false ∧
      (JiraApp.update_issue_status env key new_status).1 =
        .error (.clientError ("Unexpected error updating issue status: " ++
          JiraApp.pyStr (.valueError "too many values to unpack (expected 2)"))
          none) ∧
      JiraApp.failsWithValidationError
        (JiraApp.update_issue_status env key new_status).1 = false) := by
  refine ⟨JiraApp.validate_issue_key_ok_iff key, fun h2 => ?_⟩
  have hv := JiraApp.validate_issue_key_multi_hyphen key h2
  refine ⟨?_, ?_, ?_, ?_⟩ <;>
    simp [JiraApp.add_comment_to_issue, JiraApp.update_issue_status, hv,
      JiraApp.wrapComment, JiraApp.wrapUpdate, JiraApp.failsWithValidationError,
      JiraApp.isValidationError]

/-- Witness for C10: the two-hyphen key `"AB-CD-123"` yields the wrapped
generic errors, and the well-formed key `"AB-12"` passes validation. -/
theorem C10_witness :
    2 ≤ ("AB-CD-123" : String).toList.count '-' ∧
    (JiraApp.add_comment_to_issue demoEnv "AB-CD-123" "hello" none).1 =
      .error (.clientError ("Unexpected error adding comment: " ++
        JiraApp.pyStr (.valueError "too many values to unpack (expected 2)"))
        none) ∧
    (JiraApp.update_issue_status demoEnv "AB-CD-123" "Done").1 =
      .error (.clientError ("Unexpected error updating issue status: " ++
        JiraApp.pyStr (.valueError "too many values to unpack (expected 2)"))
        none) ∧
    JiraApp.validate_issue_key "AB-12" = .ok () := by
  have h := (C10_multi_hyphen_key_generic_error demoEnv "AB-CD-123" "hello" "Done").2
    (by decide)
  refine ⟨by decide, h.1, h.2.2.1, ?_⟩
  exact (C10_multi_hyphen_key_generic_error demoEnv "AB-12" "x" "y").1.mpr
    ⟨['A', 'B'], ['1', '2'], by decide, by decide, by decide, by decide, by decide⟩

/-- The generic-status arm of `wrapCreate` ("Error creating issue: ..." or a
status-carrying / 403 error) is never the `except Exception` wrapping of a
`ValidationError` ("Unexpected error creating issue: ..."): the two fixed
prefixes start with different characters. -/
theorem JiraApp.wrapCreate_jiraError_ne_unexpected (st : Option ℕ) (m fixed : String) :
    JiraApp.wrapCreate (.jiraError st m) ≠
      JiraApp.JiraErr.clientError ("Unexpected error creating issue: " ++
        JiraApp.pyStr (.validationError fixed)) none := by
  simp only [JiraApp.wrapCreate]
  by_cases h400 : st = some 400
  · simp [h400]
  · by_cases h403 : st = some 403
    · simp [h400, h403]
    · simp only [h400, h403, if_false]
      intro h
      injection h with h1 h2
      have hd := congrArg (fun s => s.data.head?) h1
      simp only [String.data_append] at hd
      simp at hd

/-- C6 counterexample: creating an issue with a missing project key makes no
network call, but the failure is not a `ValidationError` — it is the generic
`JiraClientError` wrapping the required-field message. -/
theorem C6_counterexample :
    JiraApp.failsWithValidationError
      (JiraApp.create_issue demoEnv none (some "Fix bug") none (some "Task") none).1
      = false ∧
    (JiraApp.create_issue demoEnv none (some "Fix bug") none (some "Task") none).1 =
      .error (.clientError
        "Unexpected error creating issue: ['Project key is required']" none) ∧
    (JiraApp.create_issue demoEnv none (some "Fix bug") none (some "Task") none).2
      = [] :=
  ⟨rfl, rfl, rfl⟩

/-- C6 (amended): `create_issue` with a missing or empty `project_key`,
`summary` or `issue_type` fails before any network call (the endpoint log is
empty), but with the generic `JiraClientError` wrapping ("Unexpected error
creating issue: ...") the required-field validation message, the
`ValidationError` being swallowed by `except Exception`; conversely, with
all three fields truthy (description may be absent) execution proceeds to
the post-validation path, and when additionally no assignee is given the
creation endpoint is invoked and the result is never one of the three
missing-mandatory-field errors. -/
theorem C6_create_issue_required_field_checks (env : JiraApp.ClientEnv)
    (project_key summary description issue_type assignee : Option String) :
    (pyFalsyStr project_key = true →
      JiraApp.create_issue env project_key summary description issue_type assignee =
        (.error (.clientError ("Unexpected error creating issue: " ++
          JiraApp.pyStr (.validationError "Project key is required")) none), [])) ∧
    (pyFalsyStr project_key = false → pyFalsyStr summary = true →
      JiraApp.create_issue env project_key summary description issue_type assignee =
        (.error (.clientError ("Unexpected error creating issue: " ++
          JiraApp.pyStr (.validationError "Summary is required")) none), [])) ∧
    (pyFalsyStr project_key = false → pyFalsyStr summary = false →
      pyFalsyStr issue_type = true →
      JiraApp.create_issue env project_key summary description issue_type assignee =
        (.error (.clientError ("Unexpected error creating issue: " ++
          JiraApp.pyStr (.validationError "Issue type is required")) none), [])) ∧
    (pyFalsyStr project_key = false → pyFalsyStr summary = false →
      pyFalsyStr issue_type = false →
      JiraApp.create_issue env project_key summary description issue_type assignee =
        JiraApp.create_issue_validated env project_key summary description issue_type
          assignee) ∧
    (pyFalsyStr project_key = false → pyFalsyStr summary = false →
      pyFalsyStr issue_type = false → pyFalsyStr assignee = true →
      (JiraApp.create_issue env project_key summary description issue_type
        assignee).2 = ["create_issue"] ∧
      (JiraApp.create_issue env project_key summary description issue_type
        assignee).1 ≠
        .error (.clientError ("Unexpected error creating issue: " ++
          JiraApp.pyStr (.validationError "Project key is required")) none) ∧
      (JiraApp.create_issue env project_key summary description issue_type
        assignee).1 ≠
        .error (.clientError ("Unexpected error creating issue: " ++
          JiraApp.pyStr (.validationError "Summary is required")) none) ∧
      (JiraApp.create_issue env project_key summary description issue_type
        assignee).1 ≠
        .error (.clientError ("Unexpected error creating issue: " ++
          JiraApp.pyStr (.validationError "Issue type is required")) none)) := by
  refine ⟨?_, ?_, ?_, ?_, ?_⟩
  · intro h1
    simp [JiraApp.create_issue, h1, JiraApp.wrapCreate]
  · intro h1 h2
    simp [JiraApp.create_issue, h1, h2, JiraApp.wrapCreate]
  · intro h1 h2 h3
    simp [JiraApp.create_issue, h1, h2, h3, JiraApp.wrapCreate]
  · intro h1 h2 h3
    simp [JiraApp.create_issue, h1, h2, h3]
  · intro h1 h2 h3 h4
    simp only [JiraApp.create_issue, h1, h2, h3, Bool.false_eq_true, if_false]
    simp only [JiraApp.create_issue_validated, h4, if_true]
    cases hcr : env.createIssue ⟨project_key.getD "", summary.getD "",
        description.getD "", issue_type.getD "", none⟩ with
    | ok k => simp [hcr]
    | error a =>
      simp only [hcr, List.nil_append]
      refine ⟨by simp, ?_, ?_, ?_⟩ <;>
        simp only [ne_eq, Except.error.injEq] <;>
        exact JiraApp.wrapCreate_jiraError_ne_unexpected _ _ _

/-- Witness for the amended C6: a missing project key fails with the wrapped
error and no network call; with all three fields present the validated path
runs and creates the issue. -/
theorem C6_witness :
    JiraApp.create_issue demoEnv none (some "Fix bug") none (some "Task") none =
      (.error (.clientError ("Unexpected error creating issue: " ++
        JiraApp.pyStr (.validationError "Project key is required")) none), []) ∧
    JiraApp.create_issue demoEnv (some "KAN") (some "Fix bug") none (some "Task")
        none =
      JiraApp.create_issue_validated demoEnv (some "KAN") (some "Fix bug") none
        (some "Task") none ∧
    (JiraApp.create_issue demoEnv (some "KAN") (some "Fix bug") none (some "Task")
      none).2 = ["create_issue"] :=
  ⟨(C6_create_issue_required_field_checks demoEnv none (some "Fix bug") none
      (some "Task") none).1 rfl,
   (C6_create_issue_required_field_checks demoEnv (some "KAN") (some "Fix bug")
      none (some "Task") none).2.2.2.1 rfl rfl rfl,
   ((C6_create_issue_required_field_checks demoEnv (some "KAN") (some "Fix bug")
      none (some "Task") none).2.2.2.2 rfl rfl rfl rfl).1⟩
